import Mathlib

/-!
The modbot example of libplctag: string codec, descriptor builder and poll loop

A shallow embedding of `src/examples/modbot.cpp`.

* Bytes are `Fin 256`; a `std::string` is the list of its bytes.
* A tag is the byte buffer the engine keeps for a handle together with the
  byte order of its 16-bit accessor.
* `int16_t` and `int` values are `Int`; the narrowing casts are explicit.
* An access outside its object (an offset outside the tag buffer, which the
  engine's contract makes a precondition; an index outside the local array; an
  index outside the string) ends the execution with a `Fault`.
* Loops carry an iteration budget; running out of it is a `Fault` of its own, so
  a result `.ok` always comes from the loop's own exit.
* `main` is embedded as the sequence of calls it makes to the engine, whose
  answers are given by a table.
-/

namespace Modbot

set_option autoImplicit false

/-- One byte (`uint8_t`, or a `char` seen through its bit pattern). -/
abbrev Byte := Fin 256

/-- Constant `const unsigned int STRING_DATA_SIZE = 80;` -/
def STRING_DATA_SIZE : Nat := 80

/-- Constant `const unsigned int STRING_SIZE_PADDING_SIZE = 2;` -/
def STRING_SIZE_PADDING_SIZE : Nat := 2

/-- Constant `const unsigned int STRING_SIZE = 82;` -/
def STRING_SIZE : Nat := 82

/-- Ways in which an execution leaves defined behaviour. -/
inductive Fault where
  /-- an accessor of the engine was given an offset outside the tag buffer -/
  | tag_offset (offset : Nat)
  /-- the local array `str` of `plc_tag_get_string` was indexed outside `0..81` -/
  | array_index (idx : Nat)
  /-- the `std::string` argument was indexed at or beyond its length -/
  | string_index (idx : Nat)
  /-- a loop of the model used up its iteration budget -/
  | out_of_fuel
  deriving DecidableEq, Repr

deriving instance DecidableEq for Except

/-- Modelled from the spec: the tag buffer behind a handle, which lives in the
engine (`../lib/libplctag.h`, not part of the source tree). The spec describes
it as a raw byte buffer read through accessors at caller-computed byte offsets,
with a 16-bit accessor whose byte order is "as defined by the controller". -/
structure Tag where
  /-- the bytes of the buffer, offset 0 first -/
  data : List Byte
  /-- byte order of the 16-bit accessor: most significant byte first when true -/
  big_endian : Bool
  deriving DecidableEq, Repr

/-- The cast `static_cast<int16_t>(n)` for an unsigned `n`: reduction modulo 2^16 into
the range -32768..32767. -/
def int16_of_nat (n : Nat) : Int := (((n + 32768) % 65536 : Nat) : Int) - 32768

/-- The 16-bit pattern of an `int16_t`. -/
def word_of_int16 (v : Int) : Nat := (v % 65536).toNat

/-- The `int16_t` held by a 16-bit pattern. -/
def int16_of_word (u : Nat) : Int := if u < 32768 then (u : Int) else (u : Int) - 65536

/-- Modelled from the spec: `plc_tag_get_uint8`, the engine's `get_primitive`
for `uint8`. An offset outside the buffer is a violated precondition. -/
def plc_tag_get_uint8 (tag : Tag) (offset : Nat) : Except Fault Byte :=
  match tag.data[offset]? with
  | some b => .ok b
  | none => .error (.tag_offset offset)

/-- Modelled from the spec: `plc_tag_set_uint8`, the engine's `set_primitive`
for `uint8`. An offset outside the buffer is a violated precondition. -/
def plc_tag_set_uint8 (tag : Tag) (offset : Nat) (val : Byte) : Except Fault Tag :=
  if offset < tag.data.length then
    .ok { tag with data := tag.data.set offset val }
  else .error (.tag_offset offset)

/-- Modelled from the spec: `plc_tag_get_int16`, the engine's `get_primitive`
for `int16`: the two bytes at `offset` and `offset + 1` in the tag's byte order. -/
def plc_tag_get_int16 (tag : Tag) (offset : Nat) : Except Fault Int :=
  match tag.data[offset]?, tag.data[offset + 1]? with
  | some b0, some b1 =>
    if tag.big_endian then .ok (int16_of_word (b0.val * 256 + b1.val))
    else .ok (int16_of_word (b0.val + b1.val * 256))
  | _, _ => .error (.tag_offset offset)

/-- Modelled from the spec: `plc_tag_set_int16`, the engine's `set_primitive`
for `int16`: stores the two bytes of `val` at `offset` and `offset + 1`. -/
def plc_tag_set_int16 (tag : Tag) (offset : Nat) (val : Int) : Except Fault Tag :=
  let u := word_of_int16 val
  let lo : Byte := Fin.ofNat (u % 256)
  let hi : Byte := Fin.ofNat (u / 256)
  if offset + 1 < tag.data.length then
    if tag.big_endian then
      .ok { tag with data := (tag.data.set offset hi).set (offset + 1) lo }
    else
      .ok { tag with data := (tag.data.set offset lo).set (offset + 1) hi }
  else .error (.tag_offset offset)

/-- Assignment `str[idx] = c` to the local array `char str[STRING_SIZE]`. -/
def array_store (str : List Byte) (idx : Nat) (c : Byte) : Except Fault (List Byte) :=
  if idx < str.length then .ok (str.set idx c) else .error (.array_index idx)

/-- Read `str[idx]` of a `std::string` inside its length. -/
def string_at (str : List Byte) (idx : Nat) : Except Fault Byte :=
  match str[idx]? with
  | some b => .ok b
  | none => .error (.string_index idx)

/-- Construction of a `std::string` from a `char` array (`return str;`): the
bytes before the first zero byte. -/
def c_string (str : List Byte) : List Byte := str.takeWhile (fun b => b ≠ 0)

/-- The loop `for(j = 0; j < str_size; j++) str[j] = (char)plc_tag_get_uint8(tag, j + 2);`
started at `j`; returns the final `j` and the array. -/
def get_string_loop (tag : Tag) (str_size : Int) :
    Nat → Nat → List Byte → Except Fault (Nat × List Byte)
  | 0, _, _ => .error .out_of_fuel
  | fuel + 1, j, str =>
    if (j : Int) < str_size then
      match plc_tag_get_uint8 tag (j + STRING_SIZE_PADDING_SIZE) with
      | .error e => .error e
      | .ok c =>
        match array_store str j c with
        | .error e => .error e
        | .ok str1 => get_string_loop tag str_size fuel (j + 1) str1
    else .ok (j, str)

/-- Function `std::string plc_tag_get_string(int32_t tag)`. -/
def plc_tag_get_string (tag : Tag) : Except Fault (List Byte) :=
  match plc_tag_get_int16 tag STRING_SIZE with
  | .error e => .error e
  | .ok str_size =>
    match get_string_loop tag str_size (str_size.toNat + 1) 0 (List.replicate STRING_SIZE 0) with
    | .error e => .error e
    | .ok (j, str) =>
      match array_store str j 0 with
      | .error e => .error e
      | .ok str1 => .ok (c_string str1)

/-- The loop `while ((str_index < str_len) && (str_index < STRING_DATA_SIZE))` of
`plc_tag_set_string`, copying `str[str_index]` to offset `2 + str_index`. -/
def set_string_copy (str : List Byte) (str_len : Int) (base_offset : Nat) :
    Nat → Nat → Tag → Except Fault (Nat × Tag)
  | 0, _, _ => .error .out_of_fuel
  | fuel + 1, str_index, tag =>
    if (str_index : Int) < str_len ∧ str_index < STRING_DATA_SIZE then
      match string_at str str_index with
      | .error e => .error e
      | .ok c =>
        match plc_tag_set_uint8 tag (base_offset + STRING_SIZE_PADDING_SIZE + str_index) c with
        | .error e => .error e
        | .ok tag1 => set_string_copy str str_len base_offset fuel (str_index + 1) tag1
    else .ok (str_index, tag)

/-- The loop `while(str_index < STRING_DATA_SIZE)` of `plc_tag_set_string`,
storing zero at offset `2 + str_index`. -/
def set_string_pad (base_offset : Nat) : Nat → Nat → Tag → Except Fault Tag
  | 0, _, _ => .error .out_of_fuel
  | fuel + 1, str_index, tag =>
    if str_index < STRING_DATA_SIZE then
      match plc_tag_set_uint8 tag (base_offset + STRING_SIZE_PADDING_SIZE + str_index) 0 with
      | .error e => .error e
      | .ok tag1 => set_string_pad base_offset fuel (str_index + 1) tag1
    else .ok tag

/-- Function `void plc_tag_set_string(int32_t tag, std::string str)`; the result is the
tag buffer after the call. -/
def plc_tag_set_string (tag : Tag) (str : List Byte) : Except Fault Tag :=
  let base_offset := 0
  let str_len := int16_of_nat str.length
  match plc_tag_set_int16 tag base_offset str_len with
  | .error e => .error e
  | .ok tag1 =>
    match set_string_copy str str_len base_offset (STRING_DATA_SIZE + 1) 0 tag1 with
    | .error e => .error e
    | .ok (str_index, tag2) =>
      set_string_pad base_offset (STRING_DATA_SIZE + 1) str_index tag2

/-- The bytes of a text, one per character code. -/
def bytes (s : String) : List Byte := s.toList.map (fun c => Fin.ofNat c.toNat)

/-- A tag buffer of `n` zero bytes. -/
def zero_tag (n : Nat) (be : Bool) : Tag := { data := List.replicate n 0, big_endian := be }

/-! ## Descriptor builder -/

/-- The connection globals of `modbot.cpp` (`g_protocol`, `g_gateway`, `g_path`,
`g_cpu`, `g_debug`, `g_data_timeout`), gathered so that they can vary. -/
structure Config where
  /-- global `g_protocol` -/
  protocol : String
  /-- global `g_gateway` -/
  gateway : String
  /-- global `g_path` -/
  path : String
  /-- global `g_cpu` -/
  cpu : String
  /-- global `g_debug` -/
  debug : Nat
  /-- global `g_data_timeout` -/
  data_timeout : Nat
  deriving DecidableEq, Repr

/-- The values the globals have in `modbot.cpp`. -/
def g_config : Config :=
  { protocol := "ab-eip", gateway := "192.168.1.200", path := "1,0", cpu := "LGX",
    debug := 4, data_timeout := 5000 }

/-- A `std::stringstream` used for output only: the text inserted so far. -/
structure StringStream where
  /-- the characters inserted so far -/
  buf : String
  deriving DecidableEq, Repr

/-- Function `std::to_string(unsigned)`. -/
def std_to_string (n : Nat) : String := Nat.repr n

/-- Insertion `ss << text` for a string or a string literal. -/
def StringStream.put (ss : StringStream) (text : String) : StringStream :=
  { buf := ss.buf ++ text }

/-- Insertion `ss << n` for an `unsigned int` (the stream is left in its default, decimal, format). -/
def StringStream.put_unsigned (ss : StringStream) (n : Nat) : StringStream :=
  { buf := ss.buf ++ Nat.repr n }

/-- Extraction `ss.str()`. -/
def StringStream.str (ss : StringStream) : String := ss.buf

/-- Function `const char* create_tag_path(std::string name, unsigned int e_size, unsigned int e_count)`:
the text assembled in `ss`. (The C++ function hands out `ss.str().c_str()`, a
pointer into a temporary; the embedding stands for the assembled text itself.) -/
def create_tag_path (cfg : Config) (name : String) (e_size : Nat) (e_count : Nat) : String :=
  let ss : StringStream := { buf := "" }
  let ss := (ss.put "protocol=").put cfg.protocol
  let ss := (ss.put "&gateway=").put cfg.gateway
  let ss := (ss.put "&path=").put cfg.path
  let ss := (ss.put "&cpu=").put cfg.cpu
  let ss := (ss.put "&elem_size=").put (std_to_string e_size)
  let ss := (ss.put "&elem_count=").put (std_to_string e_count)
  let ss := (ss.put "&debug=").put_unsigned cfg.debug
  let ss := (ss.put "&name=").put name
  ss.str

/-! ## The program `main` -/

/-- Modelled from the spec: `PLCTAG_STATUS_OK` of `libplctag.h`, the one status
value that means the operation succeeded. -/
def PLCTAG_STATUS_OK : Int := 0

/-- A call that `main` makes to the engine or to the string codec, with its arguments. -/
inductive Call where
  | create (path : String) (timeout : Nat)
  | status (tag : Int)
  | read (tag : Int) (timeout : Nat)
  | write (tag : Int) (timeout : Nat)
  | destroy (tag : Int)
  | get_string (tag : Int)
  | get_uint16 (tag : Int) (offset : Nat)
  | get_uint8 (tag : Int) (offset : Nat)
  | set_string (tag : Int) (str : String)
  | set_uint16 (tag : Int) (offset : Nat) (val : Nat)
  deriving DecidableEq, Repr

/-- Modelled from the spec: the answers of the tag engine (`libplctag`, outside
the source tree) to the calls of `main`, and the shutdown flag `g_run` as the
loop head sees it. `read`, `write` and `g_run` are indexed by the number of the
poll cycle, starting at 0. -/
structure Engine where
  /-- result of `plc_tag_create(path, timeout)`: a handle, negative on failure -/
  create : String → Nat → Int
  /-- result of `plc_tag_status(tag)` -/
  status : Int → Int
  /-- result of `plc_tag_read(tag, timeout)` in the given cycle -/
  read : Nat → Int → Int
  /-- result of `plc_tag_write(tag, timeout)` in the given cycle -/
  write : Nat → Int → Int
  /-- value of `g_run` when the loop condition of the given cycle is evaluated -/
  g_run : Nat → Bool

/-- The `std::map<std::string, int32_t> tags`: its entries in key order. -/
abbrev TagMap := List (String × Int)

/-- Lexicographic order on lists of character codes. -/
def codes_less : List Nat → List Nat → Bool
  | _, [] => false
  | [], _ :: _ => true
  | a :: as, b :: bs => if a < b then true else if b < a then false else codes_less as bs

/-- Order `std::less<std::string>`, the key order of the map. -/
def string_less (a b : String) : Bool :=
  codes_less (a.toList.map Char.toNat) (b.toList.map Char.toNat)

/-- Assignment `tags[key] = val`: overwrite the entry of `key`, or insert it at its place in key order. -/
def TagMap.assign : TagMap → String → Int → TagMap
  | [], key, val => [(key, val)]
  | (k, v) :: rest, key, val =>
    if key = k then (k, val) :: rest
    else if string_less key k then (key, val) :: (k, v) :: rest
    else (k, v) :: TagMap.assign rest key val

/-- Lookup `tags[key]` read as a value (a missing key would read as 0). -/
def TagMap.at (tags : TagMap) (key : String) : Int :=
  match tags.find? (fun kv => kv.1 = key) with
  | some kv => kv.2
  | none => 0

/-- What a run of `main` did: its calls in order, and whether `main` returned
(false when the poll loop was still running at the end of the cycle budget). -/
structure Run where
  /-- the calls, first to last -/
  calls : List Call
  /-- whether `main` reached a `return` -/
  returned : Bool
  deriving DecidableEq, Repr

/-- The loop `for (auto& kv : tags) if (kv.second < 0) return 0;` : true when it returns. -/
def create_check : TagMap → Bool
  | [] => false
  | (_, h) :: rest => if h < 0 then true else create_check rest

/-- The loop over `tags` calling `plc_tag_status`: the calls made, and true when
the loop left `main` (after destroying the tag whose status was not OK). -/
def status_check (e : Engine) : TagMap → List Call × Bool
  | [] => ([], false)
  | (_, h) :: rest =>
    if e.status h ≠ PLCTAG_STATUS_OK then ([.status h, .destroy h], true)
    else
      let r := status_check e rest
      (.status h :: r.1, r.2)

/-- The loop over `tags` calling `plc_tag_read` in one cycle: the calls made, and
true when the loop left `main` (after destroying the tag whose read failed). -/
def read_tags (e : Engine) (timeout cycle : Nat) : TagMap → List Call × Bool
  | [] => ([], false)
  | (_, h) :: rest =>
    if e.read cycle h ≠ PLCTAG_STATUS_OK then ([.read h timeout, .destroy h], true)
    else
      let r := read_tags e timeout cycle rest
      (.read h timeout :: r.1, r.2)

/-- The four `plc_tag_write` calls of one cycle, each followed on failure by the
destruction of that tag and `return 0`: the calls made, and true when `main` returned. -/
def write_tags (e : Engine) (timeout cycle : Nat) : List Int → List Call × Bool
  | [] => ([], false)
  | h :: rest =>
    if e.write cycle h ≠ PLCTAG_STATUS_OK then ([.write h timeout, .destroy h], true)
    else
      let r := write_tags e timeout cycle rest
      (.write h timeout :: r.1, r.2)

/-- The statements after the poll loop: the six `plc_tag_destroy` calls. -/
def delete_tags (tags : TagMap) : List Call :=
  [.destroy (tags.at "FaultMessage"), .destroy (tags.at "Mode"),
   .destroy (tags.at "SequenceName"), .destroy (tags.at "SequenceRun"),
   .destroy (tags.at "State"), .destroy (tags.at "StateName")]

/-- The loop `while (g_run)` and the statements after it. `cycle` counts the
iterations; `loop_i`, `mode` and `state` are the locals of `main`. -/
def poll_loop (e : Engine) (cfg : Config) (tags : TagMap) (loop_i : Nat) :
    Nat → Nat → Nat → Nat → Run
  | 0, _, _, _ => { calls := [], returned := false }
  | fuel + 1, cycle, mode, state =>
    if e.g_run cycle then
      let r := read_tags e cfg.data_timeout cycle tags
      if r.2 then { calls := r.1, returned := true }
      else
        let gets : List Call :=
          [.get_string (tags.at "FaultMessage"), .get_uint16 (tags.at "Mode") 0,
           .get_string (tags.at "SequenceName"), .get_uint8 (tags.at "SequenceRun") 0,
           .get_uint16 (tags.at "State") 0, .get_string (tags.at "StateName")]
        let ss_fault_message :=
          (((StringStream.mk "").put "this is a fault message (").put_unsigned loop_i).put ")"
        let ss_state_name := ((StringStream.mk "").put "State").put_unsigned loop_i
        let mode1 := (mode + 1) % 3
        let state1 := (state + 1) % 65536
        let sets : List Call :=
          [.set_string (tags.at "FaultMessage") ss_fault_message.str,
           .set_uint16 (tags.at "Mode") 0 mode1,
           .set_uint16 (tags.at "State") 0 state1,
           .set_string (tags.at "StateName") ss_state_name.str]
        let w := write_tags e cfg.data_timeout cycle
          [tags.at "FaultMessage", tags.at "Mode", tags.at "State", tags.at "StateName"]
        if w.2 then { calls := r.1 ++ gets ++ sets ++ w.1, returned := true }
        else
          let rest := poll_loop e cfg tags loop_i fuel (cycle + 1) mode1 state1
          { calls := r.1 ++ gets ++ sets ++ w.1 ++ rest.calls, returned := rest.returned }
    else { calls := delete_tags tags, returned := true }

/-- The map after `for (auto& key : {...}) tags[key] = 0;`. -/
def initial_tags : TagMap :=
  ["FaultMessage", "Mode", "SequenceName", "SequenceRun", "State", "StateName"].foldl
    (fun tags key => tags.assign key 0) []

/-- Function `int main()` run for at most `fuel` poll cycles. -/
def main (e : Engine) (cfg : Config) (fuel : Nat) : Run :=
  let tags := initial_tags
  let p1 := create_tag_path cfg "FaultMessage" STRING_SIZE 1
  let tags := tags.assign "FaultMessage" (e.create p1 cfg.data_timeout)
  let p2 := create_tag_path cfg "Mode" 2 1
  let tags := tags.assign "Mode" (e.create p2 cfg.data_timeout)
  let p3 := create_tag_path cfg "SequenceName" STRING_SIZE 1
  let tags := tags.assign "SequenceName" (e.create p3 cfg.data_timeout)
  let p4 := create_tag_path cfg "SequenceRun" 1 1
  let tags := tags.assign "SequenceRun" (e.create p4 cfg.data_timeout)
  let p5 := create_tag_path cfg "State" 2 1
  let tags := tags.assign "State" (e.create p5 cfg.data_timeout)
  let creates : List Call :=
    [.create p1 cfg.data_timeout, .create p2 cfg.data_timeout, .create p3 cfg.data_timeout,
     .create p4 cfg.data_timeout, .create p5 cfg.data_timeout]
  if create_check tags then { calls := creates, returned := true }
  else
    let s := status_check e tags
    if s.2 then { calls := creates ++ s.1, returned := true }
    else
      let rest := poll_loop e cfg tags 0 fuel 0 0 0
      { calls := creates ++ s.1 ++ rest.calls, returned := rest.returned }

/-! ## Concrete inputs used below -/

/-- The descriptors of the five tags that `main` creates, in creation order. -/
def created_paths : List String :=
  [create_tag_path g_config "FaultMessage" STRING_SIZE 1, create_tag_path g_config "Mode" 2 1,
   create_tag_path g_config "SequenceName" STRING_SIZE 1,
   create_tag_path g_config "SequenceRun" 1 1, create_tag_path g_config "State" 2 1]

/-- An engine in which every call succeeds: the five descriptors of `main` get the
handles 1 to 5, and the shutdown flag is seen cleared at the head of cycle `stop`. -/
def healthy_engine (stop : Nat) : Engine :=
  { create := fun path _ => (created_paths.indexOf path : Int) + 1
    status := fun _ => 0
    read := fun _ _ => 0
    write := fun _ _ => 0
    g_run := fun cycle => decide (cycle < stop) }

/-- An 88-byte little-endian buffer of zero bytes whose 16-bit field at offset
`STRING_SIZE`, the one `plc_tag_get_string` reads, holds `n` (for `n < 256`). -/
def length_tag (n : Nat) : Tag :=
  { data := List.replicate 82 0 ++ [Fin.ofNat n, 0] ++ List.replicate 4 0, big_endian := false }

/-- An 88-byte little-endian buffer whose 16-bit field at offset 0 holds `len0`
and whose 16-bit field at offset `STRING_SIZE` holds `len82` (both below 256),
with `payload` followed by zero bytes in the 80 payload bytes from offset 2. -/
def payload_tag (len0 len82 : Nat) (payload : List Byte) : Tag :=
  { data := [Fin.ofNat len0, 0] ++ payload ++ List.replicate (80 - payload.length) 0
      ++ [Fin.ofNat len82, 0] ++ List.replicate 4 0,
    big_endian := false }

/-- A string of 81 bytes `A`. -/
def text81 : List Byte := List.replicate 81 65

/-- An 88-byte little-endian buffer whose length fields (offset 0 and offset
`STRING_SIZE`) both hold 81, with 80 payload bytes `A`. -/
def overlong_tag : Tag :=
  { data := [81, 0] ++ List.replicate 80 65 ++ [81, 0] ++ List.replicate 4 0,
    big_endian := false }

/-- An engine like `healthy_engine` that never requests shutdown and whose read
of handle 2 (the tag `Mode`, second in key order) fails with status -1. -/
def read_failure_engine : Engine :=
  { healthy_engine 0 with
    read := fun _ h => if h = 2 then -1 else 0
    g_run := fun _ => true }

/-- An engine like `healthy_engine` whose creation of the second tag (`Mode`) fails with -1. -/
def create_failure_engine : Engine :=
  { healthy_engine 0 with
    create := fun path _ =>
      if path = create_tag_path g_config "Mode" 2 1 then -1
      else (created_paths.indexOf path : Int) + 1 }

/-- An engine like `healthy_engine` in which handle 3 (`SequenceName`) reports status -1. -/
def status_failure_engine : Engine :=
  { healthy_engine 0 with status := fun h => if h = 3 then -1 else 0 }

/-- The five `plc_tag_create` calls of `main` under `g_config`. -/
def create_calls : List Call := created_paths.map (fun path => Call.create path 5000)

end Modbot

namespace Modbot

/-! ## Accessor lemmas -/

end Modbot


namespace Modbot

/-! ## Claims about the string codec -/

set_option maxRecDepth 100000

/-- C1, failing input. The one-byte string `A`, and likewise `Fault: E01`, is
written into a fresh buffer of 88 zero bytes and read back. The encoder stores
the length at offset 0; the decoder takes its length from offset `STRING_SIZE`,
finds 0 there and returns the empty string, in either byte order. In a buffer
of 82 bytes, the element size `main` declares for its string tags, the decoder's
length read lies outside the buffer. -/
theorem roundtrip_fails_on_fresh_buffer :
    bytes "A" = [65] ∧ (bytes "A").length ≤ STRING_DATA_SIZE ∧
    (plc_tag_set_string (zero_tag 88 false) (bytes "A")).bind
      (fun t => plc_tag_get_int16 t 0) = .ok 1 ∧
    (plc_tag_set_string (zero_tag 88 false) (bytes "A")).bind
      (fun t => plc_tag_get_int16 t STRING_SIZE) = .ok 0 ∧
    (plc_tag_set_string (zero_tag 88 false) (bytes "A")).bind plc_tag_get_string = .ok [] ∧
    (plc_tag_set_string (zero_tag 88 true) (bytes "A")).bind plc_tag_get_string = .ok [] ∧
    (plc_tag_set_string (zero_tag 88 false) (bytes "Fault: E01")).bind plc_tag_get_string
      = .ok [] ∧
    (plc_tag_set_string (zero_tag 82 false) (bytes "A")).bind plc_tag_get_string
      = .error (.tag_offset 82) := by
  decide

/-- C2, failing input. A string of 81 bytes `A` is written into an 88-byte
buffer of zeros and read back: the decoder returns the empty string, not the
first 80 bytes. When the decoder-side length field already holds 81, the length
the encoder stores, the decoder returns 81 bytes: the 80 payload bytes and the
byte at offset 82. -/
theorem truncation_roundtrip_fails :
    80 < text81.length ∧
    (plc_tag_set_string (zero_tag 88 false) text81).bind plc_tag_get_string = .ok [] ∧
    (plc_tag_set_string (length_tag 81) text81).bind plc_tag_get_string
      = .ok (List.replicate 80 65 ++ [81]) ∧
    text81.take 80 = List.replicate 80 65 := by
  decide

/-- C3, failing input. After a string of 81 bytes is written, the 16-bit length
field at offset 0 holds 81, whereas `min 81 80` is 80; this in either byte order. -/
theorem length_field_not_clamped :
    (plc_tag_set_string (zero_tag 88 false) text81).bind (fun t => plc_tag_get_int16 t 0)
      = .ok 81 ∧
    (plc_tag_set_string (zero_tag 88 true) text81).bind (fun t => plc_tag_get_int16 t 0)
      = .ok 81 ∧
    min text81.length STRING_DATA_SIZE = 80 := by
  decide

/-- C5, failing input. The length field at offset 0 holds 3 and the payload
starts `abc`, the rest of the 88 bytes being zero: the decoder returns the empty
string, because it takes its length from offset `STRING_SIZE`. Conversely, with
0 at offset 0 and 5 at offset `STRING_SIZE` the decoder returns the five payload
bytes `hello` where the length field at offset 0 declares an empty string. -/
theorem get_string_ignores_length_at_offset_zero :
    plc_tag_get_int16 (payload_tag 3 0 [97, 98, 99]) 0 = .ok 3 ∧
    ((payload_tag 3 0 [97, 98, 99]).data.drop 2).take 3 = [97, 98, 99] ∧
    plc_tag_get_int16 (payload_tag 3 0 [97, 98, 99]) STRING_SIZE = .ok 0 ∧
    plc_tag_get_string (payload_tag 3 0 [97, 98, 99]) = .ok [] ∧
    plc_tag_get_int16 (payload_tag 0 5 (bytes "hello")) 0 = .ok 0 ∧
    plc_tag_get_int16 (payload_tag 0 5 (bytes "hello")) STRING_SIZE = .ok 5 ∧
    plc_tag_get_string (payload_tag 0 5 (bytes "hello")) = .ok (bytes "hello") ∧
    bytes "hello" = [104, 101, 108, 108, 111] := by
  decide

/-- C6, failing input. Both length fields of the 88-byte buffer hold 81. The
decoder returns 81 bytes; the last one is the byte stored at offset 82, beyond
the payload region 2..81. With a length field of 100 the decoder stores into
`str[82]`, outside its 82-byte array. -/
theorem get_string_reads_past_payload :
    plc_tag_get_int16 overlong_tag 0 = .ok 81 ∧
    plc_tag_get_int16 overlong_tag STRING_SIZE = .ok 81 ∧
    plc_tag_get_string overlong_tag = .ok (List.replicate 80 65 ++ [81]) ∧
    (List.replicate 80 65 ++ [81] : List Byte).length = 81 ∧
    overlong_tag.data[82]? = some 81 ∧
    plc_tag_get_int16 (length_tag 100) STRING_SIZE = .ok 100 ∧
    plc_tag_get_string (length_tag 100) = .error (.array_index 82) := by
  decide

/-! ## Claims about the descriptor and `main` -/

/-- C7. For every configuration, tag name, element size and element count the
text assembled by `create_tag_path` is the eight `key=value` pairs joined by
ampersands in the source's order, the three numbers written with their base-10
digits; the configuration `ab-eip`, `10.0.0.1`, `1,0`, `LGX`, debug 1 with name
`Mode`, size 2 and count 1 gives the text of the spec's scenario. The result is
a function of these inputs alone. -/
theorem create_tag_path_format (cfg : Config) (name : String) (e_size e_count : Nat) :
    create_tag_path cfg name e_size e_count
      = "protocol=" ++ cfg.protocol ++ "&gateway=" ++ cfg.gateway ++ "&path=" ++ cfg.path
        ++ "&cpu=" ++ cfg.cpu ++ "&elem_size=" ++ (Nat.toDigits 10 e_size).asString
        ++ "&elem_count=" ++ (Nat.toDigits 10 e_count).asString
        ++ "&debug=" ++ (Nat.toDigits 10 cfg.debug).asString ++ "&name=" ++ name ∧
    create_tag_path
        { protocol := "ab-eip", gateway := "10.0.0.1", path := "1,0", cpu := "LGX", debug := 1,
          data_timeout := 5000 } "Mode" 2 1
      = "protocol=ab-eip&gateway=10.0.0.1&path=1,0&cpu=LGX&elem_size=2&elem_count=1&debug=1&name=Mode" := by
  refine ⟨?_, by decide⟩
  simp only [create_tag_path, StringStream.put, StringStream.put_unsigned, StringStream.str,
    std_to_string, Nat.repr]
  rfl

/-- C8, failing input. All five creations succeed with handles 1 to 5 and every
status is OK; in the first cycle the read of the second tag (`Mode`, handle 2)
fails. `main` issues no write, destroys handle 2 only and returns: the handles
1, 3, 4 and 5 are never destroyed. -/
theorem read_failure_destroys_one_handle :
    main read_failure_engine g_config 1
      = { calls := create_calls ++
            [.status 1, .status 2, .status 3, .status 4, .status 5, .status 0,
             .read 1 5000, .read 2 5000, .destroy 2],
          returned := true } := by
  decide

/-- C9, failing inputs. When the creation of the second tag returns -1, `main`
still performs all five creations and returns without a single destroy call,
leaving the handles 1, 3, 4 and 5 live. When instead the third tag in key order
(handle 3) reports a status that is not OK, `main` destroys handle 3 only. -/
theorem setup_failure_leaks_handles :
    main create_failure_engine g_config 1 = { calls := create_calls, returned := true } ∧
    create_calls.map (fun c => match c with
        | .create path timeout => create_failure_engine.create path timeout
        | _ => 0) = [1, -1, 3, 4, 5] ∧
    main status_failure_engine g_config 1
      = { calls := create_calls ++ [.status 1, .status 2, .status 3, .destroy 3],
          returned := true } := by
  decide

/-- C10, failing input. Every engine call succeeds and shutdown is requested
after one cycle. The run has five `plc_tag_create` calls, none for `StateName`;
the map entry of `StateName` keeps the placeholder 0 of the initialisation loop,
and that value is passed to status, read, get, set, write and destroy. -/
theorem state_name_handle_never_created :
    main (healthy_engine 1) g_config 2
      = { calls := create_calls ++
            [.status 1, .status 2, .status 3, .status 4, .status 5, .status 0,
             .read 1 5000, .read 2 5000, .read 3 5000, .read 4 5000, .read 5 5000,
             .read 0 5000,
             .get_string 1, .get_uint16 2 0, .get_string 3, .get_uint8 4 0, .get_uint16 5 0,
             .get_string 0,
             .set_string 1 "this is a fault message (0)", .set_uint16 2 0 1,
             .set_uint16 5 0 1, .set_string 0 "State0",
             .write 1 5000, .write 2 5000, .write 5 5000, .write 0 5000,
             .destroy 1, .destroy 2, .destroy 3, .destroy 4, .destroy 5, .destroy 0],
          returned := true } ∧
    create_calls
      = [.create "protocol=ab-eip&gateway=192.168.1.200&path=1,0&cpu=LGX&elem_size=82&elem_count=1&debug=4&name=FaultMessage" 5000,
         .create "protocol=ab-eip&gateway=192.168.1.200&path=1,0&cpu=LGX&elem_size=2&elem_count=1&debug=4&name=Mode" 5000,
         .create "protocol=ab-eip&gateway=192.168.1.200&path=1,0&cpu=LGX&elem_size=82&elem_count=1&debug=4&name=SequenceName" 5000,
         .create "protocol=ab-eip&gateway=192.168.1.200&path=1,0&cpu=LGX&elem_size=1&elem_count=1&debug=4&name=SequenceRun" 5000,
         .create "protocol=ab-eip&gateway=192.168.1.200&path=1,0&cpu=LGX&elem_size=2&elem_count=1&debug=4&name=State" 5000] ∧
    (create_calls.map (fun c => match c with
        | .create path timeout => (healthy_engine 1).create path timeout
        | _ => 0)) = [1, 2, 3, 4, 5] := by
  decide

end Modbot
